import Mathlib

/-!
Shallow embedding of the country-assistant pages
`WebDevelopmentLab03/pages/Country_Chatbot.py` and
`WebDevelopmentLab03/pages/Country_Insights.py`.

Python strings are modelled as `List Char` (for the command classifier,
whose proofs need structural reasoning) and as `String` (for the message
and prompt templates).  Python's `str.lower` / `str.strip` / `str.title`
are modelled on the ASCII range, which covers every literal the code
compares against.  HTTP calls and the generative-AI endpoint are modelled
as explicit oracle inputs; a raised exception is a variant of the oracle's
answer, so every embedded function is total, mirroring the `try/except`
blocks that let no exception escape.
-/

/-- Whitespace test used by Python's `str.strip` (ASCII range). -/
def pyIsSpace (c : Char) : Bool :=
  c == ' ' || c == '\t' || c == '\n' || c == '\r' || c == '\x0b' || c == '\x0c'

/-- Models Python `str.lower` (ASCII range). -/
def pyLower (s : List Char) : List Char :=
  s.map Char.toLower

/-- Models Python `str.strip`: drop whitespace from both ends. -/
def pyStrip (s : List Char) : List Char :=
  ((s.dropWhile pyIsSpace).reverse.dropWhile pyIsSpace).reverse

/-- Worker for `pyTitle`; the flag records whether the previous character
was alphabetic (Python: cased). -/
def pyTitleGo (prevAlpha : Bool) : List Char → List Char
  | [] => []
  | c :: cs =>
    (if c.isAlpha then (if prevAlpha then c.toLower else c.toUpper) else c)
      :: pyTitleGo c.isAlpha cs

/-- Models Python `str.title` (ASCII range): the first alphabetic character
of each run is upper-cased, the rest lower-cased. -/
def pyTitle (s : List Char) : List Char :=
  pyTitleGo false s

/-- Models Python `str.startswith` on character lists. -/
def startsWithList : List Char → List Char → Bool
  | [], _ => true
  | _ :: _, [] => false
  | p :: ps, c :: cs => p == c && startsWithList ps cs

/-- Worker for `replaceList`, structurally recursive on a fuel counter so
that it reduces definitionally; the fuel starts at the string's length and
each step consumes at least one character, so it never runs out. -/
def replaceGo (pat repl : List Char) : Nat → List Char → List Char
  | _, [] => []
  | 0, s => s
  | fuel + 1, c :: cs =>
    if pat ≠ [] ∧ startsWithList pat (c :: cs) then
      repl ++ replaceGo pat repl fuel (cs.drop (pat.length - 1))
    else
      c :: replaceGo pat repl fuel cs

/-- Models Python `str.replace pat repl`: replace every (left-to-right,
non-overlapping) occurrence of `pat`.  An empty pattern is left untouched
(the source only ever replaces the non-empty pattern `"switch to "`). -/
def replaceList (pat repl : List Char) (s : List Char) : List Char :=
  replaceGo pat repl s.length s

/-- Substring test on character lists (Python's `in` for strings). -/
def containsSub (pat : List Char) : List Char → Bool
  | [] => startsWithList pat []
  | c :: cs => startsWithList pat (c :: cs) || containsSub pat cs

/-- Models Python slicing `s[:n]`. -/
def pyTake (n : Nat) (s : String) : String :=
  String.mk (s.toList.take n)

/-- Models Python `str.strip` on `String`. -/
def pyStripStr (s : String) : String :=
  String.mk (pyStrip s.toList)

/-- Models the rendering of a possibly-`None` Python string in an f-string. -/
def pyOptStr : Option String → String
  | none => "None"
  | some s => s

/-- Insert a comma after every third character; the input is the reversed
digit string.  Worker for `format_number`. -/
def commaGroup3 : List Char → List Char
  | a :: b :: c :: d :: rest => a :: b :: c :: ',' :: commaGroup3 (d :: rest)
  | l => l

/-- Models Python `f"{int(num):,}"`: thousands-separated decimal rendering.
In this embedding the argument is already an integer, so the
`try/except` of the source never falls back to `str(num)`. -/
def format_number (num : Int) : String :=
  (if num < 0 then "-" else "")
    ++ String.mk (commaGroup3 (Nat.repr num.natAbs).toList.reverse).reverse

/-- Chat roles stored in `st.session_state.chat_history`. -/
inductive Role where
  | user
  | assistant
deriving DecidableEq, BEq, Repr

/-- One element of `st.session_state.chat_history`. -/
structure ChatMessage where
  role : Role
  content : String
deriving DecidableEq, BEq, Repr

/-- The fields of one element of the REST-Countries JSON array that the
code reads.  `none` models an absent key; `nameCommon`/`nameOfficial`
model the nested `country.get("name", {}).get(...)` chain; `languages`
holds the dict's values and `currencies` the dict's keys, in order. -/
structure CountryJSON where
  nameCommon : Option String
  nameOfficial : Option String
  capital : Option (List String)
  region : Option String
  subregion : Option String
  population : Option Int
  area : Option Int
  languages : Option (List String)
  currencies : Option (List String)
  timezones : Option (List String)
  flag : Option String
  independent : Option Bool
  unMember : Option Bool
  latlng : Option (List Int)
deriving DecidableEq, Repr

/-- Outcome of `requests.get(...)` as seen by `fetch_country_data`:
either an exception was raised (network error, timeout, bad JSON), or a
response with a status code and a parsed JSON array arrived. -/
inductive HttpResult where
  | exc
  | resp (status : Nat) (data : List CountryJSON)
deriving DecidableEq, Repr

/-- The dict built by `fetch_country_data` in `Country_Chatbot.py`. -/
structure CountryRecord where
  name : Option String
  official_name : Option String
  capital : String
  region : String
  subregion : String
  population : Int
  area : Int
  languages : List String
  currencies : List String
  timezones : List String
  flag : String
  independent : Bool
  un_member : Bool
deriving DecidableEq, Repr

/-- Models `fetch_country_data` of `Country_Chatbot.py` (lines 130-155):
on status 200 with a non-empty array, normalize the first element with
the source's defaults; every failure path returns `None`. -/
def fetch_country_data (r : HttpResult) : Option CountryRecord :=
  match r with
  | .exc => none
  | .resp status data =>
    if status = 200 then
      match data with
      | [] => none
      | country :: _ =>
        some
          { name := country.nameCommon
            official_name := country.nameOfficial
            capital := match country.capital with
              | some (c :: _) => c
              | _ => "Unknown"
            region := country.region.getD "Unknown"
            subregion := country.subregion.getD "Unknown"
            population := country.population.getD 0
            area := country.area.getD 0
            languages := match country.languages with
              | some (l :: ls) => l :: ls
              | _ => ["Unknown"]
            currencies := match country.currencies with
              | some (c :: cs) => c :: cs
              | _ => ["Unknown"]
            timezones := country.timezones.getD []
            flag := country.flag.getD "🏳️"
            independent := country.independent.getD false
            un_member := country.unMember.getD false }
    else none

/-- Models `get_country_context` of `Country_Chatbot.py` (lines 164-181):
the deterministic context template handed to the model. -/
def get_country_context (country_data : Option CountryRecord) : String :=
  match country_data with
  | none => "No country data available."
  | some cd =>
    "\n    Current Country: " ++ pyOptStr cd.name ++ " " ++ cd.flag
      ++ "\n    - Official Name: " ++ pyOptStr cd.official_name
      ++ "\n    - Capital: " ++ cd.capital
      ++ "\n    - Region: " ++ cd.region ++ " (" ++ cd.subregion ++ ")"
      ++ "\n    - Population: " ++ format_number cd.population
      ++ "\n    - Area: " ++ format_number cd.area ++ " km²"
      ++ "\n    - Languages: " ++ String.intercalate ", " cd.languages
      ++ "\n    - Currencies: " ++ String.intercalate ", " cd.currencies
      ++ "\n    - Timezones: " ++ Nat.repr cd.timezones.length
      ++ "\n    - UN Member: " ++ (if cd.un_member then "Yes" else "No")
      ++ "\n    - Independent: " ++ (if cd.independent then "Yes" else "No")
      ++ "\n    "

/-- The classifier's result (`handle_special_command` returns a pair of a
command tag and an optional payload; the payload is only ever non-`None`
for `change_country`). -/
inductive Command where
  | change_country (country_name : List Char)
  | prompt_country
  | show_help
  | normal_message
deriving DecidableEq, Repr

/-- Models `handle_special_command` of `Country_Chatbot.py`
(lines 222-234). -/
def handle_special_command (message : List Char) : Command :=
  let message_lower := pyStrip (pyLower message)
  if startsWithList ("switch to ".toList) message_lower then
    Command.change_country
      (pyTitle (pyStrip (replaceList ("switch to ".toList) [] message_lower)))
  else if message_lower = "new country".toList ∨ message_lower = "change country".toList
      ∨ message_lower = "different country".toList then
    Command.prompt_country
  else if message_lower = "help".toList ∨ message_lower = "what can you do".toList
      ∨ message_lower = "commands".toList then
    Command.show_help
  else
    Command.normal_message

/-- Models the Python slice `l[-n:]` for `n > 0`: the last `n` elements. -/
def takeLast {α : Type} (n : Nat) (l : List α) : List α :=
  l.drop (l.length - n)

/-- Models the history-serialising loop of `generate_chat_response`
(lines 190-193): role-labelled lines, oldest first. -/
def historyText (msgs : List ChatMessage) : String :=
  msgs.foldl
    (fun acc msg =>
      acc ++ (if msg.role = Role.user then "User" else "Assistant")
        ++ ": " ++ msg.content ++ "\n")
    ""

/-- Models the `system_prompt` f-string of `generate_chat_response`
(lines 196-214). -/
def chat_system_prompt (country_context history_text current_country user_message : String) :
    String :=
  "You are CountryAI, a helpful assistant specialized in country information.\n        \n        Current Country Context:\n        "
    ++ country_context
    ++ "\n        \n        Conversation History (recent messages):\n        "
    ++ history_text
    ++ "\n        \n        Guidelines:\n        1. Use the country data above to answer questions accurately\n        2. If information isn\x27t in the data, use general knowledge but mention it\x27s not from current data\n        3. Keep responses conversational but informative\n        4. Be friendly and helpful\n        5. If asked about comparisons, suggest using \"switch to [country]\" command\n        6. Remember we\x27re discussing "
    ++ current_country
    ++ "\n        \n        User\x27s Latest Message: "
    ++ user_message
    ++ "\n        \n        Provide a helpful response as CountryAI:"

/-- Models `generate_chat_response` of `Country_Chatbot.py` (lines 183-220).
The global `gemini_model` and the completion endpoint are passed
explicitly; `generate` answers `Except.error e` when
`model.generate_content` raises `e`, and `Except.ok t` when it returns a
response with text `t` (the source then strips it). -/
def generate_chat_response (gemini_model : Option String)
    (generate : String → Except String String)
    (user_message country_context : String) (chat_history : List ChatMessage)
    (current_country : String) : String :=
  match gemini_model with
  | none => "⚠️ Gemini AI is not available. Please check your API key configuration."
  | some _ =>
    let history_text := historyText (takeLast 6 chat_history)
    let system_prompt :=
      chat_system_prompt country_context history_text current_country user_message
    match generate system_prompt with
    | Except.ok t => pyStripStr t
    | Except.error e => "❌ Sorry, I encountered an error: " ++ pyTake 100 e

/-- The inputs `init_gemini` depends on: whether the secret exists, its
value, and for each model name the probe's outcome (`none` models a raised
exception, `some t` a response whose `.text` is `t`). -/
structure GeminiEnv where
  hasKey : Bool
  apiKey : String
  probe : String → Option String

/-- The model-name fallback list of `init_gemini` (lines 101-106). -/
def models_to_try : List String :=
  ["gemini-1.5-flash", "gemini-1.0-pro", "gemini-pro", "models/gemini-1.5-flash"]

/-- The probe loop of `init_gemini` (lines 108-117): first model whose
probe succeeds with non-empty text. -/
def tryModels (probe : String → Option String) : List String → Option String
  | [] => none
  | m :: ms =>
    match probe m with
    | some t => if t ≠ "" then some m else tryModels probe ms
    | none => tryModels probe ms

/-- Models `init_gemini` of `Country_Chatbot.py` (lines 83-124): `none`
when the secret is missing, malformed, or every model fails its probe. -/
def init_gemini (g : GeminiEnv) : Option String :=
  if ¬ g.hasKey then none
  else if g.apiKey = "" ∨ ¬ startsWithList ("AIza".toList) g.apiKey.toList then none
  else tryModels g.probe models_to_try

/-- The external world as seen by one chat interaction: the country-facts
service's raw answer per queried name, the cached `gemini_model`, and the
completion endpoint. -/
structure Env where
  http : String → HttpResult
  gemini_model : Option String
  generate : String → Except String String

/-- The mutable `st.session_state` fields the chat handler touches. -/
structure SessionState where
  chat_history : List ChatMessage
  current_country : String
  country_data : Option CountryRecord
deriving DecidableEq, Repr

/-- The `help_text` literal of `Country_Chatbot.py` (lines 399-412). -/
def help_text : String :=
  "\n                **Available Commands:**\n                - `switch to [country]` - Change to a different country\n                - `help` - Show this help message\n                \n                **You can ask about:**\n                - Capital cities and major cities\n                - Population and demographics\n                - Languages and culture\n                - Economy and currency\n                - Travel information\n                - History and government\n                - And much more!\n                "

/-- Models the chat-input handler of `Country_Chatbot.py` (lines 378-452):
classify the input, then either mutate the country state or obtain an AI
reply, appending the resulting messages to the history. -/
def applyIntent (env : Env) (st : SessionState) (user_input : String) : SessionState :=
  match handle_special_command user_input.toList with
  | Command.change_country cn =>
    let command_data := String.mk cn
    let st : SessionState :=
      { st with
        current_country := command_data
        country_data := fetch_country_data (env.http command_data) }
    match st.country_data with
    | some _ =>
      { st with
        chat_history := st.chat_history ++
          [{ role := Role.assistant
             content := "✅ Switched to " ++ command_data
               ++ "! What would you like to know?" }] }
    | none =>
      { st with
        chat_history := st.chat_history ++
          [{ role := Role.assistant
             content := "❌ Could not find data for \x27" ++ command_data
               ++ "\x27. Please try another country." }] }
  | Command.show_help =>
    { st with
      chat_history := st.chat_history ++
        [{ role := Role.assistant, content := help_text }] }
  | Command.prompt_country =>
    { st with
      chat_history := st.chat_history ++
        [{ role := Role.assistant
           content := "Please use the sidebar to select a country, or type: `switch to [country name]`" }] }
  | Command.normal_message =>
    let st : SessionState :=
      { st with
        chat_history := st.chat_history ++
          [{ role := Role.user, content := user_input }] }
    let st :=
      if st.country_data = none then
        { st with country_data := fetch_country_data (env.http st.current_country) }
      else st
    let country_context := get_country_context st.country_data
    let response :=
      generate_chat_response env.gemini_model env.generate user_input
        country_context st.chat_history st.current_country
    { st with
      chat_history := st.chat_history ++
        [{ role := Role.assistant, content := response }] }

/-- Models the suggested-question button handler of `Country_Chatbot.py`
(lines 471-493): the question is appended as a user message, and an AI
reply is generated only when `country_data` is present. -/
def applySuggestedQuestion (env : Env) (st : SessionState) (question : String) :
    SessionState :=
  let st : SessionState :=
    { st with
      chat_history := st.chat_history ++
        [{ role := Role.user, content := question }] }
  match st.country_data with
  | some _ =>
    let country_context := get_country_context st.country_data
    let response :=
      generate_chat_response env.gemini_model env.generate question
        country_context st.chat_history st.current_country
    { st with
      chat_history := st.chat_history ++
        [{ role := Role.assistant, content := response }] }
  | none => st

namespace Insights

/-- The dict built by `fetch_country_data` in `Country_Insights.py`
(lines 118-142); this page records coordinates instead of the
independence/UN flags. -/
structure CountryRecord where
  name : Option String
  official_name : Option String
  capital : String
  region : String
  subregion : String
  population : Int
  area : Int
  languages : List String
  currencies : List String
  timezones : List String
  flag : String
  coordinates : List Int
deriving DecidableEq, Repr

/-- Models `fetch_country_data` of `Country_Insights.py` (lines 118-142):
identical failure behaviour to the chatbot's fetch (the page additionally
renders an error banner, a pure display effect), with this page's field
set. -/
def fetch_country_data (r : HttpResult) : Option CountryRecord :=
  match r with
  | .exc => none
  | .resp status data =>
    if status = 200 then
      match data with
      | [] => none
      | country :: _ =>
        some
          { name := country.nameCommon
            official_name := country.nameOfficial
            capital := match country.capital with
              | some (c :: _) => c
              | _ => "Unknown"
            region := country.region.getD "Unknown"
            subregion := country.subregion.getD "Unknown"
            population := country.population.getD 0
            area := country.area.getD 0
            languages := match country.languages with
              | some (l :: ls) => l :: ls
              | _ => ["Unknown"]
            currencies := match country.currencies with
              | some (c :: cs) => c :: cs
              | _ => ["Unknown"]
            timezones := country.timezones.getD []
            flag := country.flag.getD "🏳️"
            coordinates := country.latlng.getD [0, 0] }
    else none

/-- Models the `prompt` f-string of `generate_travel_analysis`
(lines 155-181). -/
def travel_prompt (country_data : CountryRecord) (traveler_type season : String)
    (duration : Nat) : String :=
  "\n        Create a comprehensive travel analysis for " ++ pyOptStr country_data.name
    ++ " for a " ++ traveler_type ++ " traveler.\n        \n        Travel Details:\n        - Season: "
    ++ season
    ++ "\n        - Duration: " ++ Nat.repr duration
    ++ " days\n        - Traveler Type: " ++ traveler_type
    ++ "\n        \n        Country Information:\n        - Capital: " ++ country_data.capital
    ++ "\n        - Population: " ++ format_number country_data.population
    ++ "\n        - Area: " ++ format_number country_data.area
    ++ " km²\n        - Region: " ++ country_data.region
    ++ "\n        - Languages: " ++ String.intercalate ", " country_data.languages
    ++ "\n        - Currency: " ++ String.intercalate ", " country_data.currencies
    ++ "\n        \n        Please provide:\n        1. Best travel itinerary for " ++ Nat.repr duration
    ++ " days\n        2. Seasonal weather analysis for " ++ season
    ++ "\n        3. Cultural etiquette and tips\n        4. Budget recommendations for " ++ traveler_type
    ++ "\n        5. Must-try local foods\n        6. Hidden gems and off-the-beaten-path locations\n        7. Safety considerations\n        \n        Make it practical and engaging!\n        "

/-- Models `generate_travel_analysis` of `Country_Insights.py`
(lines 149-186); note the 150-character truncation of the diagnostic and
that the response text is returned without stripping. -/
def generate_travel_analysis (gemini_model : Option String)
    (generate : String → Except String String) (country_data : CountryRecord)
    (traveler_type season : String) (duration : Nat) : String :=
  match gemini_model with
  | none => "⚠️ Gemini AI is not available. Please check your API key configuration in Streamlit secrets."
  | some _ =>
    match generate (travel_prompt country_data traveler_type season duration) with
    | Except.ok t => t
    | Except.error e => "❌ Error generating analysis: " ++ pyTake 150 e

/-- Models the population-density computation of the economic-analysis tab
(`Country_Insights.py` lines 407-409); Python float division is rendered
as exact rational division. -/
def density (country_data : CountryRecord) : ℚ :=
  if country_data.area > 0 then
    (country_data.population : ℚ) / (country_data.area : ℚ)
  else 0

end Insights

example : handle_special_command ("Switch To france".toList)
    = Command.change_country ("France".toList) := by decide

example : handle_special_command ("  help  ".toList) = Command.show_help := by decide

example : handle_special_command ("tell me about culture".toList)
    = Command.normal_message := by decide

example : handle_special_command ("switch to ".toList) = Command.normal_message := by
  decide

example : handle_special_command ("compare with france".toList)
    = Command.normal_message := by decide

/-- Characterisation of `startsWithList` as an append decomposition. -/
lemma startsWithList_iff (p s : List Char) :
    startsWithList p s = true ↔ ∃ t, s = p ++ t := by
  induction p generalizing s with
  | nil => simp [startsWithList]
  | cons a ps ih =>
    cases s with
    | nil => simp [startsWithList]
    | cons c cs =>
      rw [startsWithList, Bool.and_eq_true, beq_iff_eq, ih]
      constructor
      · rintro ⟨rfl, t, rfl⟩
        exact ⟨t, rfl⟩
      · rintro ⟨t, het⟩
        injection het with h1 h2
        exact ⟨h1.symm, t, h2⟩

/-- A list starts with itself. -/
lemma startsWithList_self_append (p t : List Char) :
    startsWithList p (p ++ t) = true := by
  induction p with
  | nil => rfl
  | cons a ps ih => simp [startsWithList, ih]

/-- `containsSub` finds a pattern sitting at the front. -/
lemma containsSub_here (p t : List Char) : containsSub p (p ++ t) = true := by
  cases p with
  | nil => cases t <;> simp [containsSub, startsWithList]
  | cons a ps =>
    simp only [List.cons_append, containsSub, Bool.or_eq_true]
    exact Or.inl (startsWithList_self_append (a :: ps) t)

/-- `containsSub` is preserved by prepending. -/
lemma containsSub_append_left (p a rest : List Char)
    (h : containsSub p rest = true) : containsSub p (a ++ rest) = true := by
  induction a with
  | nil => simpa using h
  | cons c cs ih => simp [containsSub, List.cons_append, ih]

/-- Appending strings concatenates their character lists. -/
lemma toList_append (s t : String) : (s ++ t).toList = s.toList ++ t.toList := by
  cases s
  cases t
  rfl

/-- C6 (confirmed): a raised exception (network error or timeout), a
non-200 status, and an empty result array each make both pages'
`fetch_country_data` return `None`; the functions are total, so no
exception escapes. -/
theorem fetch_failure_none (r : HttpResult)
    (h : r = HttpResult.exc
      ∨ (∃ s d, r = HttpResult.resp s d ∧ s ≠ 200)
      ∨ ∃ s, r = HttpResult.resp s []) :
    fetch_country_data r = none ∧ Insights.fetch_country_data r = none := by
  rcases h with rfl | ⟨s, d, rfl, hs⟩ | ⟨s, rfl⟩
  · exact ⟨rfl, rfl⟩
  · constructor <;> simp [fetch_country_data, Insights.fetch_country_data, hs]
  · by_cases hs : s = 200 <;>
      constructor <;> simp [fetch_country_data, Insights.fetch_country_data, hs]

/-- Witness for `fetch_failure_none` at a concrete 404 response. -/
theorem fetch_failure_none_witness :
    fetch_country_data (HttpResult.resp 404 []) = none
    ∧ Insights.fetch_country_data (HttpResult.resp 404 []) = none :=
  fetch_failure_none _ (Or.inr (Or.inl ⟨404, [], rfl, by decide⟩))

/-- C8 (confirmed): a 200 response with a non-empty array yields a record
whose population and area are non-negative (given the service's
non-negative numbers) and whose languages and currencies are non-empty,
falling back to the singleton `["Unknown"]` when the fields are absent. -/
theorem fetch_success_wellformed (country : CountryJSON) (rest : List CountryJSON)
    (hp : ∀ p, country.population = some p → 0 ≤ p)
    (ha : ∀ a, country.area = some a → 0 ≤ a) :
    ∃ rec, fetch_country_data (HttpResult.resp 200 (country :: rest)) = some rec
      ∧ 0 ≤ rec.population ∧ 0 ≤ rec.area
      ∧ rec.languages ≠ [] ∧ rec.currencies ≠ []
      ∧ (country.languages = none → rec.languages = ["Unknown"])
      ∧ (country.currencies = none → rec.currencies = ["Unknown"]) := by
  refine ⟨_, rfl, ?_, ?_, ?_, ?_, ?_, ?_⟩
  · cases hpo : country.population with
    | none => simp [hpo]
    | some p => simpa [hpo] using hp p hpo
  · cases hao : country.area with
    | none => simp [hao]
    | some a => simpa [hao] using ha a hao
  · rcases hl : country.languages with _ | (_ | ⟨l, ls⟩) <;> simp [hl]
  · rcases hc : country.currencies with _ | (_ | ⟨c, cs⟩) <;> simp [hc]
  · intro h
    simp [h]
  · intro h
    simp [h]

/-- Sample REST-Countries JSON element used by concrete witnesses. -/
def sampleJSON : CountryJSON :=
  { nameCommon := some "Japan"
    nameOfficial := some "Japan"
    capital := some ["Tokyo"]
    region := some "Asia"
    subregion := some "Eastern Asia"
    population := some 125000000
    area := some 377975
    languages := some ["Japanese"]
    currencies := some ["JPY"]
    timezones := some ["UTC+09:00"]
    flag := some "🇯🇵"
    independent := some true
    unMember := some true
    latlng := some [36, 138] }

/-- Witness for `fetch_success_wellformed` at a concrete response. -/
theorem fetch_success_wellformed_witness :
    ∃ rec, fetch_country_data (HttpResult.resp 200 [sampleJSON]) = some rec
      ∧ 0 ≤ rec.population ∧ 0 ≤ rec.area
      ∧ rec.languages ≠ [] ∧ rec.currencies ≠ []
      ∧ (sampleJSON.languages = none → rec.languages = ["Unknown"])
      ∧ (sampleJSON.currencies = none → rec.currencies = ["Unknown"]) :=
  fetch_success_wellformed sampleJSON []
    (fun p h => by
      have h1 := Option.some.inj h
      omega)
    (fun a h => by
      have h1 := Option.some.inj h
      omega)

/-- C9 (confirmed): the history window handed to the model
(`chat_history[-6:]`) never holds more than 6 messages and is a suffix of
the full history, so relative (oldest-first) order is preserved. -/
theorem recent_history_bounded (chat_history : List ChatMessage) :
    (takeLast 6 chat_history).length ≤ 6
    ∧ List.IsSuffix (takeLast 6 chat_history) chat_history := by
  constructor
  · rw [takeLast, List.length_drop]
    omega
  · exact List.drop_suffix _ _

/-- The record the Insights page builds from `sampleJSON`. -/
def japanRec : Insights.CountryRecord :=
  { name := some "Japan"
    official_name := some "Japan"
    capital := "Tokyo"
    region := "Asia"
    subregion := "Eastern Asia"
    population := 125000000
    area := 377975
    languages := ["Japanese"]
    currencies := ["JPY"]
    timezones := ["UTC+09:00"]
    flag := "🇯🇵"
    coordinates := [36, 138] }

/-- C10 (confirmed): the economic-analysis density is guarded: for every
record produced by the Insights fetch, a non-positive area yields density
0, and a positive area yields exactly population divided by area. -/
theorem density_guarded (r : HttpResult) (rec : Insights.CountryRecord)
    (_h : Insights.fetch_country_data r = some rec) :
    (rec.area ≤ 0 → Insights.density rec = 0)
    ∧ (0 < rec.area → Insights.density rec * (rec.area : ℚ) = (rec.population : ℚ)) := by
  constructor
  · intro hle
    have hn : ¬ (rec.area > 0) := by omega
    simp [Insights.density, hn]
  · intro hpos
    have hne : (rec.area : ℚ) ≠ 0 := by
      exact_mod_cast ne_of_gt hpos
    simp only [Insights.density, if_pos hpos]
    exact div_mul_cancel₀ _ hne

/-- Witness for `density_guarded` on the concrete Japan record. -/
theorem density_guarded_witness :
    Insights.density japanRec * (japanRec.area : ℚ) = (japanRec.population : ℚ) :=
  (density_guarded (HttpResult.resp 200 [sampleJSON]) japanRec rfl).2 (by decide)

/-- C4 counterexample: the input `"switch to "` is NOT classified as a
switch command with an empty country name; trimming removes the trailing
space, the prefix check fails, and the input falls through to
`normal_message`. -/
theorem switch_blank_cex :
    handle_special_command ("switch to ".toList) = Command.normal_message := by
  decide

/-- C4 (corrected): every input whose lower-cased, trimmed form is exactly
`"switch to"` (e.g. `"switch to "` with any trailing whitespace or
casing) is classified as `normal_message`; no empty-remainder switch
command can reach the fetch. -/
theorem switch_blank_normal_message (s : List Char)
    (h : pyStrip (pyLower s) = "switch to".toList) :
    handle_special_command s = Command.normal_message := by
  simp only [handle_special_command, h]
  decide

/-- Witness for `switch_blank_normal_message` at a concrete input. -/
theorem switch_blank_normal_message_witness :
    handle_special_command ("SWITCH TO  ".toList) = Command.normal_message :=
  switch_blank_normal_message _ (by decide)

/-- C3 counterexample: `"compare with france"` is classified as
`normal_message`, not as any compare intent — the classifier defines no
such command. -/
theorem compare_with_cex :
    handle_special_command ("compare with france".toList) = Command.normal_message := by
  decide

/-- C3 (corrected): every input whose lower-cased, trimmed form starts
with `"compare with "` falls through every special-command check and is
classified as `normal_message`. -/
theorem compare_with_normal_message (s : List Char)
    (h : startsWithList ("compare with ".toList) (pyStrip (pyLower s)) = true) :
    handle_special_command s = Command.normal_message := by
  obtain ⟨t, ht⟩ := (startsWithList_iff _ _).mp h
  have h2 : pyStrip (pyLower s) ≠ "new country".toList := by
    rw [ht]
    intro hEq
    have hx : (['c'] : List Char) = ['n'] := congrArg (List.take 1) hEq
    exact absurd hx (by decide)
  have h3 : pyStrip (pyLower s) ≠ "change country".toList := by
    rw [ht]
    intro hEq
    have hx : (['c', 'o'] : List Char) = ['c', 'h'] := congrArg (List.take 2) hEq
    exact absurd hx (by decide)
  have h4 : pyStrip (pyLower s) ≠ "different country".toList := by
    rw [ht]
    intro hEq
    have hx : (['c'] : List Char) = ['d'] := congrArg (List.take 1) hEq
    exact absurd hx (by decide)
  have h5 : pyStrip (pyLower s) ≠ "help".toList := by
    rw [ht]
    intro hEq
    have hx : (['c'] : List Char) = ['h'] := congrArg (List.take 1) hEq
    exact absurd hx (by decide)
  have h6 : pyStrip (pyLower s) ≠ "what can you do".toList := by
    rw [ht]
    intro hEq
    have hx : (['c'] : List Char) = ['w'] := congrArg (List.take 1) hEq
    exact absurd hx (by decide)
  have h7 : pyStrip (pyLower s) ≠ "commands".toList := by
    rw [ht]
    intro hEq
    have hx : (['c', 'o', 'm', 'p'] : List Char) = ['c', 'o', 'm', 'm'] :=
      congrArg (List.take 4) hEq
    exact absurd hx (by decide)
  unfold handle_special_command
  simp only []
  rw [if_neg, if_neg, if_neg]
  · rintro (hq | hq | hq) <;> [exact h5 hq; exact h6 hq; exact h7 hq]
  · rintro (hq | hq | hq) <;> [exact h2 hq; exact h3 hq; exact h4 hq]
  · rw [ht]
    intro hX
    have hY : (false : Bool) = true := hX
    cases hY

/-- Witness for `compare_with_normal_message` at a concrete input. -/
theorem compare_with_normal_message_witness :
    handle_special_command ("Compare with Japan please".toList) = Command.normal_message :=
  compare_with_normal_message _ (by decide)

/-- The context string, decomposed into its template chunks and
interpolated values (right-associated). -/
lemma get_country_context_toList (cd : CountryRecord) :
    (get_country_context (some cd)).toList =
      "\n    Current Country: ".toList ++ ((pyOptStr cd.name).toList ++ (" ".toList ++
        (cd.flag.toList ++ ("\n    - Official Name: ".toList ++
        ((pyOptStr cd.official_name).toList ++ ("\n    - Capital: ".toList ++
        (cd.capital.toList ++ ("\n    - Region: ".toList ++ (cd.region.toList ++
        (" (".toList ++ (cd.subregion.toList ++ (")".toList ++
        ("\n    - Population: ".toList ++ ((format_number cd.population).toList ++
        ("\n    - Area: ".toList ++ ((format_number cd.area).toList ++ (" km²".toList ++
        ("\n    - Languages: ".toList ++ ((String.intercalate ", " cd.languages).toList ++
        ("\n    - Currencies: ".toList ++ ((String.intercalate ", " cd.currencies).toList ++
        ("\n    - Timezones: ".toList ++ ((Nat.repr cd.timezones.length).toList ++
        ("\n    - UN Member: ".toList ++ ((if cd.un_member then "Yes" else "No").toList ++
        ("\n    - Independent: ".toList ++ ((if cd.independent then "Yes" else "No").toList ++
        "\n    ".toList))))))))))))))))))))))))))) := by
  set_option maxRecDepth 4000 in
  simp [get_country_context, toList_append, List.append_assoc]

/-- C5 (corrected): the context string contains the record's name,
official name, capital, region and subregion, thousands-separated
population and area, comma-joined languages and currencies, the COUNT of
timezones, UN-member and INDEPENDENT rendered as Yes/No, and the flag
glyph; the individual timezones, neighbors, and a landlocked field are
not part of this template. -/
theorem context_contains_fields (cd : CountryRecord) :
    containsSub ((pyOptStr cd.name).toList) (get_country_context (some cd)).toList = true
    ∧ containsSub ((pyOptStr cd.official_name).toList) (get_country_context (some cd)).toList = true
    ∧ containsSub (cd.capital.toList) (get_country_context (some cd)).toList = true
    ∧ containsSub (cd.region.toList) (get_country_context (some cd)).toList = true
    ∧ containsSub (cd.subregion.toList) (get_country_context (some cd)).toList = true
    ∧ containsSub ((format_number cd.population).toList) (get_country_context (some cd)).toList = true
    ∧ containsSub ((format_number cd.area).toList) (get_country_context (some cd)).toList = true
    ∧ containsSub ((String.intercalate ", " cd.languages).toList) (get_country_context (some cd)).toList = true
    ∧ containsSub ((String.intercalate ", " cd.currencies).toList) (get_country_context (some cd)).toList = true
    ∧ containsSub (("- Timezones: ".toList) ++ (Nat.repr cd.timezones.length).toList) (get_country_context (some cd)).toList = true
    ∧ containsSub ((if cd.un_member then "Yes" else "No").toList) (get_country_context (some cd)).toList = true
    ∧ containsSub ((if cd.independent then "Yes" else "No").toList) (get_country_context (some cd)).toList = true
    ∧ containsSub (cd.flag.toList) (get_country_context (some cd)).toList = true := by
  rw [get_country_context_toList]
  refine ⟨?_, ?_, ?_, ?_, ?_, ?_, ?_, ?_, ?_, ?_, ?_, ?_, ?_⟩ <;>
    repeat (first | exact containsSub_here _ _ | apply containsSub_append_left)

/-- A concrete chatbot record used by counterexamples. -/
def cdJapan : CountryRecord :=
  { name := some "Japan"
    official_name := some "Japan"
    capital := "Tokyo"
    region := "Asia"
    subregion := "Eastern Asia"
    population := 125000000
    area := 377975
    languages := ["Japanese"]
    currencies := ["JPY"]
    timezones := ["UTC+09:00", "UTC+10:00", "UTC+11:00"]
    flag := "🇯🇵"
    independent := true
    un_member := true }

/-- C5 counterexample: for a record with three timezones, the context
string contains none of them (only their count), and it contains no
"None" neighbor placeholder and no "Landlocked" line — refuting the
claimed first-3-timezones, neighbor and landlocked coverage. -/
theorem context_missing_fields_cex :
    containsSub ("UTC+09:00".toList) (get_country_context (some cdJapan)).toList = false
    ∧ containsSub ("None".toList) (get_country_context (some cdJapan)).toList = false
    ∧ containsSub ("Landlocked".toList) (get_country_context (some cdJapan)).toList = false := by
  set_option maxRecDepth 100000 in
  refine ⟨?_, ?_, ?_⟩ <;> decide

/-- The diagnostic string of maximal interesting length for the C7
counterexample. -/
def longDiag : String := String.mk (List.replicate 150 'x')

/-- C7 counterexample: when the completion call fails with a 150-character
diagnostic, `generate_travel_analysis` embeds all 150 characters — there
is no string of at most 100 characters that the error sentinel truncates
the diagnostic to, refuting the claimed 100-character bound for this
function. -/
theorem travel_diag_exceeds_100_cex :
    ¬ ∃ d : String,
      Insights.generate_travel_analysis (some "gemini-1.5-flash")
          (fun _ => Except.error longDiag) japanRec "Backpacker" "Spring" 7
        = "❌ Error generating analysis: " ++ d
      ∧ d.length ≤ 100 := by
  rintro ⟨d, hEq, hLen⟩
  have h1 : "❌ Error generating analysis: " ++ pyTake 150 longDiag
      = "❌ Error generating analysis: " ++ d := hEq
  have h2 := congrArg String.length h1
  rw [String.length_append, String.length_append] at h2
  have h3 : (pyTake 150 longDiag).length = 150 := rfl
  rw [h3] at h2
  omega

/-- C7 (corrected): when the model handle is absent (missing credentials
or every model failing its probe), both reply operations return their
fixed warning sentinel; when the completion call raises, the chatbot's
reply is the error sentinel with the diagnostic truncated to at most 100
characters, while the Insights travel analysis truncates to at most 150
characters; all paths return a string, so nothing is raised. -/
theorem ai_failure_sentinels (gemini_model : Option String)
    (generate : String → Except String String)
    (user_message country_context current_country : String)
    (chat_history : List ChatMessage) (country_data : Insights.CountryRecord)
    (traveler_type season : String) (duration : Nat) :
    (gemini_model = none →
      generate_chat_response gemini_model generate user_message country_context
          chat_history current_country
        = "⚠️ Gemini AI is not available. Please check your API key configuration."
      ∧ Insights.generate_travel_analysis gemini_model generate country_data
          traveler_type season duration
        = "⚠️ Gemini AI is not available. Please check your API key configuration in Streamlit secrets.")
    ∧ (∀ m, gemini_model = some m →
      (∀ e, generate (chat_system_prompt country_context
            (historyText (takeLast 6 chat_history)) current_country user_message)
          = Except.error e →
        generate_chat_response gemini_model generate user_message country_context
            chat_history current_country
          = "❌ Sorry, I encountered an error: " ++ pyTake 100 e
        ∧ (pyTake 100 e).length ≤ 100)
      ∧ (∀ e, generate (Insights.travel_prompt country_data traveler_type season duration)
          = Except.error e →
        Insights.generate_travel_analysis gemini_model generate country_data
            traveler_type season duration
          = "❌ Error generating analysis: " ++ pyTake 150 e
        ∧ (pyTake 150 e).length ≤ 150)) := by
  constructor
  · rintro rfl
    exact ⟨rfl, rfl⟩
  · rintro m rfl
    constructor
    · intro e he
      constructor
      · simp [generate_chat_response, he]
      · show (e.toList.take 100).length ≤ 100
        rw [List.length_take]
        exact Nat.min_le_left _ _
    · intro e he
      constructor
      · simp [Insights.generate_travel_analysis, he]
      · show (e.toList.take 150).length ≤ 150
        rw [List.length_take]
        exact Nat.min_le_left _ _

/-- Witness for `ai_failure_sentinels` on a concrete failing call. -/
theorem ai_failure_sentinels_witness :
    generate_chat_response (some "gemini-1.5-flash") (fun _ => Except.error "boom")
        "hi" "ctx" [] "United States"
      = "❌ Sorry, I encountered an error: " ++ pyTake 100 "boom"
    ∧ (pyTake 100 "boom").length ≤ 100 :=
  ((ai_failure_sentinels (some "gemini-1.5-flash") (fun _ => Except.error "boom")
      "hi" "ctx" "United States" [] japanRec "Backpacker" "Spring" 7).2
    "gemini-1.5-flash" rfl).1 "boom" rfl

/-- An environment whose country-facts service finds nothing and whose AI
is unavailable. -/
def envNF : Env :=
  { http := fun _ => HttpResult.resp 404 []
    gemini_model := none
    generate := fun _ => Except.error "" }

/-- The chatbot record for the United States used by counterexamples. -/
def recUS : CountryRecord :=
  { name := some "United States"
    official_name := some "United States of America"
    capital := "Washington, D.C."
    region := "Americas"
    subregion := "North America"
    population := 331000000
    area := 9833520
    languages := ["English"]
    currencies := ["USD"]
    timezones := ["UTC-05:00"]
    flag := "🇺🇸"
    independent := true
    un_member := true }

/-- A session currently on the United States with loaded data. -/
def stUS : SessionState :=
  { chat_history := []
    current_country := "United States"
    country_data := some recUS }

/-- C1 counterexample: a `switch to` whose fetch yields `NotFound` does
NOT leave the state unchanged — the current country becomes the requested
name and the record becomes `None` (the assignments happen before the
fetch result is inspected); exactly one error message is appended. -/
theorem switch_notfound_cex :
    (applyIntent envNF stUS "switch to atlantis").current_country ≠ stUS.current_country
    ∧ (applyIntent envNF stUS "switch to atlantis").country_data ≠ stUS.country_data
    ∧ (applyIntent envNF stUS "switch to atlantis").chat_history
        = stUS.chat_history ++
          [{ role := Role.assistant
             content := "❌ Could not find data for \x27Atlantis\x27. Please try another country." }] := by
  refine ⟨by decide, by decide, by decide⟩

/-- C1 (corrected): when the classifier yields a switch command and the
fetch yields `NotFound`, the handler sets the current country to the
requested name, sets the current record to `None`, and appends exactly
one assistant error message. -/
theorem switch_notfound_state (env : Env) (st : SessionState) (user_input : String)
    (cn : List Char)
    (hc : handle_special_command user_input.toList = Command.change_country cn)
    (hf : fetch_country_data (env.http (String.mk cn)) = none) :
    applyIntent env st user_input =
      { chat_history := st.chat_history ++
          [{ role := Role.assistant
             content := "❌ Could not find data for \x27" ++ String.mk cn
               ++ "\x27. Please try another country." }]
        current_country := String.mk cn
        country_data := none } := by
  have hc2 : handle_special_command user_input.data = Command.change_country cn := hc
  simp [applyIntent, hc2, hf]

/-- Witness for `switch_notfound_state` at a concrete session. -/
theorem switch_notfound_state_witness :
    applyIntent envNF stUS "switch to atlantis" =
      { chat_history :=
          [{ role := Role.assistant
             content := "❌ Could not find data for \x27Atlantis\x27. Please try another country." }]
        current_country := "Atlantis"
        country_data := none } :=
  switch_notfound_state envNF stUS "switch to atlantis" ("Atlantis".toList)
    (by decide) rfl

/-- Number of assistant-authored messages in a history. -/
def assistantCount (msgs : List ChatMessage) : Nat :=
  (msgs.filter (fun m => m.role == Role.assistant)).length

/-- C2 (corrected): the chat-input handler appends exactly one assistant
message for every intent and state; the suggested-question handler does
so only when country data is loaded. -/
theorem handlers_append_assistant (env : Env) (st : SessionState) (user_input : String) :
    (∃ ms, (applyIntent env st user_input).chat_history = st.chat_history ++ ms
      ∧ assistantCount ms = 1)
    ∧ (st.country_data.isSome = true →
      ∃ ms, (applySuggestedQuestion env st user_input).chat_history = st.chat_history ++ ms
        ∧ assistantCount ms = 1) := by
  constructor
  · match hc : handle_special_command user_input.data with
    | Command.change_country cn =>
      cases hf : fetch_country_data (env.http (String.mk cn)) with
      | some rec =>
        refine ⟨[{ role := Role.assistant
                   content := "✅ Switched to " ++ String.mk cn
                     ++ "! What would you like to know?" }], ?_, rfl⟩
        simp [applyIntent, hc, hf]
      | none =>
        refine ⟨[{ role := Role.assistant
                   content := "❌ Could not find data for \x27" ++ String.mk cn
                     ++ "\x27. Please try another country." }], ?_, rfl⟩
        simp [applyIntent, hc, hf]
    | Command.show_help =>
      refine ⟨[{ role := Role.assistant, content := help_text }], ?_, rfl⟩
      simp [applyIntent, hc]
    | Command.prompt_country =>
      refine ⟨[{ role := Role.assistant
                 content := "Please use the sidebar to select a country, or type: `switch to [country name]`" }],
        ?_, rfl⟩
      simp [applyIntent, hc]
    | Command.normal_message =>
      cases hcd : st.country_data with
      | none =>
        refine ⟨[{ role := Role.user, content := user_input },
                 { role := Role.assistant
                   content := generate_chat_response env.gemini_model env.generate user_input
                     (get_country_context (fetch_country_data (env.http st.current_country)))
                     (st.chat_history ++ [{ role := Role.user, content := user_input }])
                     st.current_country }], ?_, rfl⟩
        simp [applyIntent, hc, hcd]
      | some cd =>
        refine ⟨[{ role := Role.user, content := user_input },
                 { role := Role.assistant
                   content := generate_chat_response env.gemini_model env.generate user_input
                     (get_country_context (some cd))
                     (st.chat_history ++ [{ role := Role.user, content := user_input }])
                     st.current_country }], ?_, rfl⟩
        simp [applyIntent, hc, hcd]
  · intro hs
    obtain ⟨cd, hcd⟩ := Option.isSome_iff_exists.mp hs
    refine ⟨[{ role := Role.user, content := user_input },
             { role := Role.assistant
               content := generate_chat_response env.gemini_model env.generate user_input
                 (get_country_context (some cd))
                 (st.chat_history ++ [{ role := Role.user, content := user_input }])
                 st.current_country }], ?_, rfl⟩
    simp [applySuggestedQuestion, hcd]

/-- Witness for `handlers_append_assistant` at a concrete session with
loaded country data. -/
theorem handlers_append_assistant_witness :
    ∃ ms, (applySuggestedQuestion envNF stUS "What is the capital?").chat_history
        = stUS.chat_history ++ ms
      ∧ assistantCount ms = 1 :=
  (handlers_append_assistant envNF stUS "What is the capital?").2 rfl

/-- A session with no loaded country data. -/
def stNoData : SessionState :=
  { chat_history := []
    current_country := "United States"
    country_data := none }

/-- C2 counterexample: the suggested-question handler with no loaded
country record appends only the user's message and no assistant message
at all, so not every handled utterance produces a visible response. -/
theorem suggested_question_silent_cex :
    (applySuggestedQuestion envNF stNoData "What is the capital?").chat_history
      = [{ role := Role.user, content := "What is the capital?" }]
    ∧ assistantCount (applySuggestedQuestion envNF stNoData "What is the capital?").chat_history
      = 0 :=
  ⟨rfl, rfl⟩
